import Mathlib

/-!
Shallow embedding of the fashion-recommendation search pipeline
(src/search.py and src/database.py of mohitsharmas97/Fashion_recommendation).

External services are passed in as explicit oracles:
  - the ChromaDB collection's `query` method is a function
    `IndexQuery → Except Unit (List Int)`: the arguments of one
    `collection.query(...)` call, and either the ids list
    `results["ids"][0]` (ChromaDB ids are the decimal strings of the
    integer `ProductId`s written by setup_database.py, and search.py
    converts them back with `int(pid)`, so they are modelled as `Int`)
    or an exception (`Except.error ()`);
  - a Gemini completion call (`_generate`) is its outcome
    `Except Unit String`: the response text, or an exception;
  - the outcome of `_generate` followed by the markdown-fence strip and
    `json.loads` in `parse_query_with_gemini` is
    `Except Unit (Option JsonVal)`: `Except.error ()` when the
    completion call raised, `Except.ok none` when `json.loads` raised
    on the returned text, `Except.ok (some j)` when it parsed to `j`.

Each pipeline entry point returns its result as `Except Unit _`
(`Except.error ()` models an uncaught Python exception propagating to
the caller) together with the list of index queries it issued, in
order.  `generate_fashion_advice` additionally returns the number of
completion requests it issued.
-/

namespace FashionRec

/-- A JSON value as produced by Python's `json.loads` (numbers restricted
to integers; the claims under study involve no floats). -/
inductive JsonVal where
  | null
  | bool (b : Bool)
  | int (n : Int)
  | str (s : String)
  | arr (elems : List JsonVal)
  | obj (fields : List (String × JsonVal))

/-- Python `d.get(key)` on a parsed JSON value: the first value bound to
`key` when the value is an object that has it, `none` otherwise. -/
def JsonVal.getField : JsonVal → String → Option JsonVal
  | JsonVal.obj fields, key => (fields.find? (fun kv => kv.1 == key)).map (fun kv => kv.2)
  | _, _ => none

/-- The literal fallback dict of `parse_query_with_gemini` (search.py
lines 101-103): search_text is the raw query, every other key is None. -/
def fallbackFilters (query : String) : JsonVal :=
  JsonVal.obj [("search_text", JsonVal.str query), ("max_price", JsonVal.null),
    ("min_price", JsonVal.null), ("gender", JsonVal.null), ("color", JsonVal.null),
    ("usage", JsonVal.null), ("product_type", JsonVal.null), ("category", JsonVal.null)]

/-- search.py `parse_query_with_gemini` (lines 67-103).  `parsedResponse`
is the outcome of `_generate` + fence strip + `json.loads` (see the file
header): the `try` block returns whatever value `json.loads` produced —
with no shape check — and the `except` returns the fallback dict. -/
def parse_query_with_gemini (parsedResponse : Except Unit (Option JsonVal))
    (query : String) : JsonVal :=
  match parsedResponse with
  | Except.error _ => fallbackFilters query
  | Except.ok none => fallbackFilters query
  | Except.ok (some j) => j

/-- The Filter Set: the dict shape that `parse_query_with_gemini`'s prompt
demands and that its fallback produces, read into Lean option types
(`none` = the key is absent or bound to None). -/
structure Filters where
  search_text : Option String := none
  max_price : Option Int := none
  min_price : Option Int := none
  gender : Option String := none
  color : Option String := none
  usage : Option String := none
  product_type : Option String := none
  category : Option String := none
  deriving Repr, DecidableEq

/-- Python truthiness of a string-or-None dict entry: None and the empty
string are falsy. -/
def strTruthy : Option String → Bool
  | none => false
  | some s => s != ""

/-- Python truthiness of an integer-or-None dict entry: None and 0 are
falsy. -/
def intTruthy : Option Int → Bool
  | none => false
  | some n => n != 0

/-- One ChromaDB metadata condition: `{field: {"$eq": v}}`,
`{field: {"$lte": n}}` or `{field: {"$gte": n}}`. -/
inductive Cond where
  | eq (field : String) (value : String)
  | lte (field : String) (value : Int)
  | gte (field : String) (value : Int)
  deriving Repr, DecidableEq

/-- A ChromaDB where clause: the empty dict, a single bare condition, or
`{"$and": [conditions]}`. -/
inductive Where where
  | empty
  | single (c : Cond)
  | conj (cs : List Cond)
  deriving Repr, DecidableEq

/-- The `conditions` list built by `build_chroma_where` (search.py lines
108-123): one append per truthy field, in source order.  Each Python
`if filters.get(k):` test is truthiness, and `int(...)` on the price
values is the identity here because the fields are already integers. -/
def conditionsOf (filters : Filters) : List Cond :=
  (if strTruthy filters.gender then [Cond.eq "Gender" (filters.gender.getD "")] else []) ++
  (if strTruthy filters.color then [Cond.eq "Colour" (filters.color.getD "")] else []) ++
  (if strTruthy filters.usage then [Cond.eq "Usage" (filters.usage.getD "")] else []) ++
  (if strTruthy filters.product_type then [Cond.eq "ProductType" (filters.product_type.getD "")] else []) ++
  (if strTruthy filters.category then [Cond.eq "Category" (filters.category.getD "")] else []) ++
  (if intTruthy filters.max_price then [Cond.lte "Price" (filters.max_price.getD 0)] else []) ++
  (if intTruthy filters.min_price then [Cond.gte "Price" (filters.min_price.getD 0)] else [])

/-- search.py `build_chroma_where` (lines 106-130): zero conditions give
the empty dict, one is returned bare, two or more go under `$and`. -/
def build_chroma_where (filters : Filters) : Where :=
  match conditionsOf filters with
  | [] => Where.empty
  | [c] => Where.single c
  | cs => Where.conj cs

/-- Number of truthy condition fields of a Filter Set (the seven fields
that `build_chroma_where` inspects; search_text never yields a
condition). -/
def truthyFieldCount (filters : Filters) : Nat :=
  (if strTruthy filters.gender then 1 else 0) +
  (if strTruthy filters.color then 1 else 0) +
  (if strTruthy filters.usage then 1 else 0) +
  (if strTruthy filters.product_type then 1 else 0) +
  (if strTruthy filters.category then 1 else 0) +
  (if intTruthy filters.max_price then 1 else 0) +
  (if intTruthy filters.min_price then 1 else 0)

/-- Modelled from the spec's words, for comparison with the code: the
number of NON-NULL condition fields of a Filter Set (what the claim about
the Filter Compiler counts, as opposed to `truthyFieldCount`, which is
what the code tests). -/
def nonNullFieldCount (filters : Filters) : Nat :=
  (if filters.gender.isSome then 1 else 0) +
  (if filters.color.isSome then 1 else 0) +
  (if filters.usage.isSome then 1 else 0) +
  (if filters.product_type.isSome then 1 else 0) +
  (if filters.category.isSome then 1 else 0) +
  (if filters.max_price.isSome then 1 else 0) +
  (if filters.min_price.isSome then 1 else 0)

/-- One row of the `products` SQLite table (the columns the core reads). -/
structure Product where
  ProductId : Int
  ProductTitle : String := ""
  Category : String := ""
  SubCategory : String := ""
  ProductType : String := ""
  Gender : String := ""
  Colour : String := ""
  Usage : String := ""
  Price : Int := 0
  deriving Repr, DecidableEq

/-- database.py `get_products_by_ids` (lines 19-30): empty id list short
circuits to `[]`; otherwise `SELECT * FROM products WHERE ProductId IN
(...)` returns the matching rows in table-scan order (the query has no
ORDER BY), modelled as a filter of the table in its own order. -/
def get_products_by_ids (db : List Product) (product_ids : List Int) : List Product :=
  if product_ids.isEmpty then []
  else db.filter (fun p => product_ids.contains p.ProductId)

/-- database.py `get_product_by_id` (lines 33-40): `fetchone` on
`SELECT * FROM products WHERE ProductId = ?`, i.e. the first matching
row, or None. -/
def get_product_by_id (db : List Product) (product_id : Int) : Option Product :=
  db.find? (fun p => p.ProductId == product_id)

/-- The arguments of one `collection.query(...)` call: the single query
text, `n_results`, and the `where` kwarg (`none` when the kwarg is not
passed). -/
structure IndexQuery where
  query_text : String
  n_results : Nat
  where_clause : Option Where
  deriving Repr, DecidableEq

/-- Python `str.strip()` as applied by `_generate` to every completion
response (search.py lines 39 and 53): leading and trailing whitespace
removed.  Written by structural recursion over the character list so
that it evaluates inside the kernel. -/
def pyStrip (s : String) : String :=
  String.mk (((s.data.dropWhile Char.isWhitespace).reverse.dropWhile Char.isWhitespace).reverse)

/-- search.py `generate_fashion_advice` (lines 291-310), with the Gemini
call as an oracle.  Returns the advice string together with the number of
completion requests issued: the empty-products early return issues none;
otherwise exactly one request is made, whose failure falls back to the
templated sentence.  `_generate` strips the response text. -/
def generate_fashion_advice (resp : Except Unit String) (query : String)
    (products : List Product) : String × Nat :=
  if products.isEmpty then
    ("I couldn\'t find products matching your query. Try different keywords!", 0)
  else
    match resp with
    | Except.ok t => (pyStrip t, 1)
    | Except.error _ =>
        ("Great picks! Here are " ++ toString products.length ++ " items that match \'"
          ++ query ++ "\'. These selections are curated based on your preferences.", 1)

/-- search.py `generate_outfit_advice` (lines 313-327): fixed string on an
empty complement list, otherwise one completion request with a fixed
fallback on failure.  `base_product` only shapes the prompt text, which
the completion oracle already accounts for. -/
def generate_outfit_advice (resp : Except Unit String) (base_product : Product)
    (complement_products : List Product) : String :=
  if complement_products.isEmpty then
    "Complete your look with these complementary items!"
  else
    match resp with
    | Except.ok t => pyStrip t
    | Except.error _ =>
        "Complete your look with these perfectly matched items! Mix and match for a stylish outfit."

/-- The Python expression `filters.get("search_text") or query` of
search.py line 143: the extracted phrase when truthy, the raw query
otherwise. -/
def searchTextOf (filters : Filters) (query : String) : String :=
  match filters.search_text with
  | some s => if s = "" then query else s
  | none => query

/-- The unfiltered ChromaDB call of text_search (search.py lines 157-160
and the retry of lines 164-167): clamped limit, no where kwarg. -/
def textRetryQuery (filters : Filters) (query : String) (n_results : Nat) : IndexQuery :=
  { query_text := searchTextOf filters query, n_results := min n_results 50,
    where_clause := none }

/-- The first ChromaDB call text_search issues (search.py lines 150-160):
the where kwarg is passed exactly when the built clause is truthy
(non-empty). -/
def textIndexQuery (filters : Filters) (query : String) (n_results : Nat) : IndexQuery :=
  if build_chroma_where filters = Where.empty then
    textRetryQuery filters query n_results
  else
    { query_text := searchTextOf filters query, n_results := min n_results 50,
      where_clause := some (build_chroma_where filters) }

/-- A text-search result dict: `search_text := none` models the
empty-match return of search.py line 171, whose dict has no
`search_text` key. -/
structure SearchResult where
  products : List Product
  advice : String
  filters : Filters
  search_text : Option String
  deriving Repr, DecidableEq

/-- Steps 3 and 4 of text_search (search.py lines 169-184), factored out:
the empty-match early return (whose dict has no search_text key), else
the store lookup and the advice call over the first four products. -/
def textFinish (advResp : Except Unit String) (db : List Product) (filters : Filters)
    (query : String) (ids : List Int) : Except Unit SearchResult :=
  if ids.isEmpty then
    Except.ok { products := [], advice := "No products found matching your query.",
                filters := filters, search_text := none }
  else
    let products := get_products_by_ids db ids
    let advice := (generate_fashion_advice advResp query (products.take 4)).1
    Except.ok { products := products, advice := advice, filters := filters,
                search_text := some (searchTextOf filters query) }

/-- search.py `text_search` (lines 133-184) below the parse stage:
`filters` is the value `parse_query_with_gemini` produced (its fallback
included), read as a typed Filter Set — `text_search_from_parse`,
defined later, is the whole function from the top, including the
AttributeError raised at line 143 when the parse output is not a dict.
`q` is the ChromaDB `query` method, `advResp` the outcome of the advice
completion call.  The first index query is wrapped in try/except whose
handler issues the unfiltered retry; the retry itself is unguarded, so
its exception propagates (`Except.error`). -/
def text_search (q : IndexQuery → Except Unit (List Int)) (advResp : Except Unit String)
    (db : List Product) (filters : Filters) (query : String) (n_results : Nat) :
    Except Unit SearchResult × List IndexQuery :=
  let finish : List Int → Except Unit SearchResult := textFinish advResp db filters query
  match q (textIndexQuery filters query n_results) with
  | Except.ok ids => (finish ids, [textIndexQuery filters query n_results])
  | Except.error _ =>
      match q (textRetryQuery filters query n_results) with
      | Except.ok ids =>
          (finish ids, [textIndexQuery filters query n_results, textRetryQuery filters query n_results])
      | Except.error e =>
          (Except.error e, [textIndexQuery filters query n_results, textRetryQuery filters query n_results])

/-- The analysis dict of `image_search`, read into option types (the
shape its prompt demands and its fallback produces). -/
structure ImageAnalysis where
  description : Option String := none
  product_type : Option String := none
  color : Option String := none
  style : Option String := none
  gender : Option String := none
  search_query : Option String := none
  deriving Repr, DecidableEq

/-- The fallback analysis dict of search.py lines 212-217, used when the
Gemini Vision call or its JSON parse fails. -/
def imageFallbackAnalysis : ImageAnalysis :=
  { description := some "clothing item", search_query := some "fashion clothing",
    color := none, gender := none }

/-- search.py line 220:
`analysis.get("search_query", analysis.get("description", "fashion"))`. -/
def imageSearchTextOf (analysis : ImageAnalysis) : String :=
  analysis.search_query.getD (analysis.description.getD "fashion")

/-- The filters dict built by image_search (search.py lines 223-231):
gender is dropped when it is "Unisex" or None, color is passed through,
everything else is None. -/
def imageFiltersOf (analysis : ImageAnalysis) : Filters :=
  { search_text := none
    max_price := none
    min_price := none
    gender := match analysis.gender with
      | some g => if g = "Unisex" then none else some g
      | none => none
    color := analysis.color
    usage := none
    product_type := none
    category := none }

/-- The unfiltered ChromaDB call of image_search (search.py lines 238 and
240): the caller-supplied limit is passed through UNCLAMPED. -/
def imageRetryQuery (analysis : ImageAnalysis) (n_results : Nat) : IndexQuery :=
  { query_text := imageSearchTextOf analysis, n_results := n_results, where_clause := none }

/-- The first ChromaDB call image_search issues (search.py lines 235-238);
the limit is passed through unclamped. -/
def imageIndexQuery (analysis : ImageAnalysis) (n_results : Nat) : IndexQuery :=
  if build_chroma_where (imageFiltersOf analysis) = Where.empty then
    imageRetryQuery analysis n_results
  else
    { query_text := imageSearchTextOf analysis, n_results := n_results,
      where_clause := some (build_chroma_where (imageFiltersOf analysis)) }

/-- The advice f-string of search.py line 246 (its leading magnifier
emoji, mojibake in the source file, is elided). -/
def imageAdviceOf (analysis : ImageAnalysis) : String :=
  "Found similar items to your uploaded image. I detected: **"
    ++ analysis.description.getD "a clothing item"
    ++ "**. Here are the closest matches from our collection:"

/-- An image-search result dict (search.py lines 248-253). -/
structure ImageResult where
  products : List Product
  advice : String
  analysis : ImageAnalysis
  search_text : String
  deriving Repr, DecidableEq

/-- search.py `image_search` (lines 187-253) below the vision-analysis
stage: `analysis` is the dict the Gemini Vision call produced
(`imageFallbackAnalysis` when it failed) — `image_search_from_vision`,
defined later, is the whole function from the top, including the
AttributeError raised at line 220 when the analysis output is not a
dict.  The advice line is a plain f-string: image_search issues no
completion request after the analysis.  As in text_search, the first
index query falls back to an unfiltered retry whose own exception
propagates. -/
def image_search (q : IndexQuery → Except Unit (List Int)) (db : List Product)
    (analysis : ImageAnalysis) (n_results : Nat) :
    Except Unit ImageResult × List IndexQuery :=
  let finish : List Int → Except Unit ImageResult := fun ids =>
    Except.ok { products := get_products_by_ids db ids, advice := imageAdviceOf analysis,
                analysis := analysis, search_text := imageSearchTextOf analysis }
  match q (imageIndexQuery analysis n_results) with
  | Except.ok ids => (finish ids, [imageIndexQuery analysis n_results])
  | Except.error _ =>
      match q (imageRetryQuery analysis n_results) with
      | Except.ok ids =>
          (finish ids, [imageIndexQuery analysis n_results, imageRetryQuery analysis n_results])
      | Except.error e =>
          (Except.error e, [imageIndexQuery analysis n_results, imageRetryQuery analysis n_results])

/-- The rule-based complementary-query text of search.py lines 265-272
(the first membership list really is written `["Topwear", "Topwear"]` in
the source). -/
def complementQueryOf (p : Product) : String :=
  if p.SubCategory ∈ ["Topwear", "Topwear"] then
    "bottoms jeans trousers for " ++ p.Gender ++ " " ++ p.Usage ++ " " ++ p.Colour
  else if p.SubCategory ∈ ["Bottomwear"] then
    "tops shirts for " ++ p.Gender ++ " " ++ p.Usage
  else if p.SubCategory ∈ ["Footwear", "Flip Flops", "Shoes"] then
    "casual " ++ p.Usage ++ " outfit for " ++ p.Gender
  else
    p.Usage ++ " fashion for " ++ p.Gender

/-- The single ChromaDB call of `get_outfit_recommendations` (search.py
lines 276-280): fixed limit 6, where clause a bare gender equality. -/
def outfitIndexQuery (p : Product) : IndexQuery :=
  { query_text := complementQueryOf p, n_results := 6,
    where_clause := some (Where.single (Cond.eq "Gender" p.Gender)) }

/-- An outfit-recommendation result dict; `base_product := none` models
the not-found return of search.py line 262, whose dict has no
`base_product` key. -/
structure OutfitResult where
  products : List Product
  advice : String
  base_product : Option Product
  deriving Repr, DecidableEq

/-- search.py `get_outfit_recommendations` (lines 256-288).  The single
index query is NOT wrapped in any try/except: its exception propagates
(`Except.error`).  The returned ids are filtered against
`str(product_id)` (integer comparison here, faithful because the stored
ChromaDB ids are canonical decimal strings of the ProductIds), truncated
to 6, and looked up in the store. -/
def get_outfit_recommendations (q : IndexQuery → Except Unit (List Int))
    (advResp : Except Unit String) (db : List Product) (product_id : Int) :
    Except Unit OutfitResult × List IndexQuery :=
  match get_product_by_id db product_id with
  | none => (Except.ok { products := [], advice := "Product not found.", base_product := none }, [])
  | some product =>
      match q (outfitIndexQuery product) with
      | Except.error e => (Except.error e, [outfitIndexQuery product])
      | Except.ok ids =>
          let product_ids := ids.filter (fun pid => pid != product_id)
          let products := get_products_by_ids db (product_ids.take 6)
          let advice := generate_outfit_advice advResp product products
          (Except.ok { products := products, advice := advice, base_product := some product },
            [outfitIndexQuery product])

/-! Concrete oracles, products and Filter Sets used by the witness and
counterexample theorems below. -/

/-- The index backend failing on every call. -/
def qAlwaysFail : IndexQuery → Except Unit (List Int) := fun _ => Except.error ()

/-- The index backend succeeding on every call with zero matches. -/
def qAlwaysEmpty : IndexQuery → Except Unit (List Int) := fun _ => Except.ok []

/-- The index backend rejecting every predicate-carrying query and
answering predicate-free queries with zero matches. -/
def qFailFiltered : IndexQuery → Except Unit (List Int) := fun iq =>
  match iq.where_clause with
  | some _ => Except.error ()
  | none => Except.ok []

/-- The index backend ranking product 2 above product 1 on every call. -/
def qRankTwoFirst : IndexQuery → Except Unit (List Int) := fun _ => Except.ok [2, 1]

/-- The index backend returning the base product 7 itself together with
product 8 on every call. -/
def qReturnsBase : IndexQuery → Except Unit (List Int) := fun _ => Except.ok [7, 8]

/-- A failing Gemini completion call. -/
def genFail : Except Unit String := Except.error ()

/-- A Gemini completion call answering a fixed advice text. -/
def genOk : Except Unit String := Except.ok "Nice picks."

/-- Product 1 of the two-row store used by the ordering counterexample. -/
def pOne : Product := { ProductId := 1, ProductTitle := "A" }

/-- Product 2 of the two-row store used by the ordering counterexample. -/
def pTwo : Product := { ProductId := 2, ProductTitle := "B" }

/-- A top-wear base product for the outfit recommender. -/
def pBase : Product :=
  { ProductId := 7, Gender := "Men", SubCategory := "Topwear", Usage := "Casual",
    Colour := "Blue" }

/-- A complementary product sharing the base product's gender. -/
def pComp : Product := { ProductId := 8, Gender := "Men" }

/-- A Filter Set whose only non-null field is a price ceiling of 0. -/
def fZeroMax : Filters := { max_price := some 0 }

/-- A Filter Set whose only non-null field is gender "Men". -/
def fMenOnly : Filters := { gender := some "Men" }

/-- The Filter Set of the spec's end-to-end scenario: color "Blue" and a
price ceiling of 2000. -/
def fBlue2000 : Filters := { color := some "Blue", max_price := some 2000 }

/-- Reading of one string-or-null field of a parsed JSON object: `none`
when the value falls outside the prompt's declared type for the field,
`some` of the option value otherwise (an absent key and a JSON null both
read as the Python None the code's truthiness tests see). -/
def readStr : Option JsonVal → Option (Option String)
  | none => some none
  | some JsonVal.null => some none
  | some (JsonVal.str s) => some (some s)
  | some _ => none

/-- Reading of one integer-or-null field of a parsed JSON object, as
`readStr`. -/
def readInt : Option JsonVal → Option (Option Int)
  | none => some none
  | some JsonVal.null => some none
  | some (JsonVal.int n) => some (some n)
  | some _ => none

/-- Reading of a parsed JSON value into the typed Filter Set: `some`
exactly when the value is an object whose eight known fields are each
absent, null, or of the type the extraction prompt declares for them
(`none` for every non-object value, on which Python's
`filters.get(...)` raises AttributeError). -/
def filtersOfJson : JsonVal → Option Filters
  | JsonVal.obj fields =>
      (readStr ((JsonVal.obj fields).getField "search_text")).bind fun st =>
      (readInt ((JsonVal.obj fields).getField "max_price")).bind fun mx =>
      (readInt ((JsonVal.obj fields).getField "min_price")).bind fun mn =>
      (readStr ((JsonVal.obj fields).getField "gender")).bind fun g =>
      (readStr ((JsonVal.obj fields).getField "color")).bind fun c =>
      (readStr ((JsonVal.obj fields).getField "usage")).bind fun u =>
      (readStr ((JsonVal.obj fields).getField "product_type")).bind fun pt =>
      (readStr ((JsonVal.obj fields).getField "category")).bind fun cat =>
      some { search_text := st, max_price := mx, min_price := mn, gender := g,
             color := c, usage := u, product_type := pt, category := cat }
  | _ => none

/-- search.py `text_search` from the top (lines 133-184), the parse stage
included: `filters` is whatever `parse_query_with_gemini` returned.
When that value is not a JSON object, the attribute access
`filters.get("search_text")` at line 143 raises AttributeError, which
propagates out of text_search with no index query issued — modelled by
the `none` branch.  When it is an object within the prompt's type
contract, it reads as a typed Filter Set and the pipeline proceeds as
`text_search`.  An object carrying a field value outside that contract
(say a numeric gender) would drive the query text, predicate values or
`int()` coercions outside this embedding's types; `filtersOfJson` maps
it to the error branch too, and no theorem below depends on that case. -/
def text_search_from_parse (q : IndexQuery → Except Unit (List Int))
    (advResp : Except Unit String) (db : List Product)
    (parsedResponse : Except Unit (Option JsonVal)) (query : String) (n_results : Nat) :
    Except Unit SearchResult × List IndexQuery :=
  match filtersOfJson (parse_query_with_gemini parsedResponse query) with
  | some filters => text_search q advResp db filters query n_results
  | none => (Except.error (), [])

/-- The literal fallback analysis dict of search.py lines 212-217 as the
JSON value the `except` handler builds. -/
def imageFallbackJson : JsonVal :=
  JsonVal.obj [("description", JsonVal.str "clothing item"),
    ("search_query", JsonVal.str "fashion clothing"),
    ("color", JsonVal.null), ("gender", JsonVal.null)]

/-- The vision-parse stage of image_search (search.py lines 206-217):
the parsed value of the Gemini Vision response, or the fallback dict
when the call failed or `json.loads` raised. -/
def visionParsed (visionResponse : Except Unit (Option JsonVal)) : JsonVal :=
  match visionResponse with
  | Except.error _ => imageFallbackJson
  | Except.ok none => imageFallbackJson
  | Except.ok (some j) => j

/-- Reading of a parsed vision JSON value into the typed analysis dict:
`some` exactly when it is an object whose six known fields are absent,
null or strings (`none` for every non-object value, on which
`analysis.get(...)` at search.py line 220 raises AttributeError). -/
def analysisOfJson : JsonVal → Option ImageAnalysis
  | JsonVal.obj fields =>
      (readStr ((JsonVal.obj fields).getField "description")).bind fun d =>
      (readStr ((JsonVal.obj fields).getField "product_type")).bind fun pt =>
      (readStr ((JsonVal.obj fields).getField "color")).bind fun c =>
      (readStr ((JsonVal.obj fields).getField "style")).bind fun st =>
      (readStr ((JsonVal.obj fields).getField "gender")).bind fun g =>
      (readStr ((JsonVal.obj fields).getField "search_query")).bind fun sq =>
      some { description := d, product_type := pt, color := c, style := st,
             gender := g, search_query := sq }
  | _ => none

/-- search.py `image_search` from the top (lines 187-253), the
vision-analysis stage included; as in `text_search_from_parse`, a
non-object analysis value raises AttributeError at line 220 before any
index query (the `none` branch), and an in-contract object proceeds as
`image_search`. -/
def image_search_from_vision (q : IndexQuery → Except Unit (List Int)) (db : List Product)
    (visionResponse : Except Unit (Option JsonVal)) (n_results : Nat) :
    Except Unit ImageResult × List IndexQuery :=
  match analysisOfJson (visionParsed visionResponse) with
  | some analysis => image_search q db analysis n_results
  | none => (Except.error (), [])

deriving instance DecidableEq for Except

/-! Theorems.  Each claim C1..C10 of the specification is settled below;
helper lemmas precede the claim theorems that use them. -/

/-- The conditions list of the Filter Compiler has exactly one entry per
truthy condition field. -/
theorem conditionsOf_length (filters : Filters) :
    (conditionsOf filters).length = truthyFieldCount filters := by
  unfold conditionsOf truthyFieldCount
  split_ifs <;> rfl

/-- C7: for every call to the Result Composer (`generate_fashion_advice`)
with an empty matched-product list, it returns the fixed no-results
message and issues zero language-model completion requests (the second
component counts the completion requests issued). -/
theorem C7_composer_empty_no_llm (resp : Except Unit String) (query : String) :
    generate_fashion_advice resp query [] =
      ("I couldn\'t find products matching your query. Try different keywords!", 0) := rfl

/-- C8: for every product identifier not present in the Product Store,
`get_outfit_recommendations` returns ok with empty products and the fixed
advice "Product not found." (and issues no index query), raising no
exception. -/
theorem C8_outfit_not_found (q : IndexQuery → Except Unit (List Int))
    (advResp : Except Unit String) (db : List Product) (product_id : Int)
    (h : get_product_by_id db product_id = none) :
    get_outfit_recommendations q advResp db product_id =
      (Except.ok { products := [], advice := "Product not found.", base_product := none }, []) := by
  simp [get_outfit_recommendations, h]

/-- C8 witness: product 99 is not in the one-row store [pOne], and the
not-found dict is returned. -/
theorem C8_witness :
    get_outfit_recommendations qAlwaysFail genFail [pOne] 99 =
      (Except.ok { products := [], advice := "Product not found.", base_product := none }, []) :=
  C8_outfit_not_found qAlwaysFail genFail [pOne] 99 rfl

/-- C6 counterexample: the completion output "[]" is valid JSON of an
unexpected shape (a JSON array); `json.loads` succeeds on it, so
`parse_query_with_gemini` returns the array as-is — not a Filter Set
whose search phrase equals the raw query, contrary to the claim. -/
theorem C6_counterexample :
    (parse_query_with_gemini (Except.ok (some (JsonVal.arr []))) "blue jeans").getField
        "search_text" ≠ some (JsonVal.str "blue jeans") ∧
    parse_query_with_gemini (Except.ok (some (JsonVal.arr []))) "blue jeans" ≠
      fallbackFilters "blue jeans" :=
  ⟨by simp [parse_query_with_gemini, JsonVal.getField], fun h => JsonVal.noConfusion h⟩

/-- C6 as amended: when the completion call itself fails, or its output is
not valid JSON (so `json.loads` raises), extraction returns the degraded
Filter Set whose search phrase is the raw query and whose every other
field is null; it is a total function, so it never raises.  (Output that
parses as JSON of an unexpected shape is returned unchanged instead —
see the counterexample.) -/
theorem C6_parse_fallback (parsedResponse : Except Unit (Option JsonVal)) (query : String)
    (h : parsedResponse = Except.error () ∨ parsedResponse = Except.ok none) :
    parse_query_with_gemini parsedResponse query = fallbackFilters query ∧
    (fallbackFilters query).getField "search_text" = some (JsonVal.str query) ∧
    ∀ key ∈ (["max_price", "min_price", "gender", "color", "usage", "product_type",
        "category"] : List String),
      (fallbackFilters query).getField key = some JsonVal.null := by
  refine ⟨?_, rfl, ?_⟩
  · rcases h with h | h <;> rw [h] <;> rfl
  · intro key hk
    fin_cases hk <;> rfl

/-- C6 witness: the fallback at a concrete failing completion call. -/
theorem C6_witness :
    parse_query_with_gemini (Except.error ()) "red dress" = fallbackFilters "red dress" ∧
    (fallbackFilters "red dress").getField "search_text" = some (JsonVal.str "red dress") ∧
    ∀ key ∈ (["max_price", "min_price", "gender", "color", "usage", "product_type",
        "category"] : List String),
      (fallbackFilters "red dress").getField key = some JsonVal.null :=
  C6_parse_fallback (Except.error ()) "red dress" (Or.inl rfl)

/-- C4 counterexample: the Filter Set whose only NON-NULL field is a price
ceiling of 0 has exactly one non-null field, yet the compiler emits the
EMPTY predicate rather than the single corresponding condition, because
the code tests Python truthiness (`if filters.get("max_price"):`) and 0
is falsy. -/
theorem C4_counterexample :
    nonNullFieldCount fZeroMax = 1 ∧ build_chroma_where fZeroMax = Where.empty := by decide

/-- C4 as amended: with "non-null field" read as "truthy field" (non-null
and, for the string fields, non-empty; for the price fields, non-zero) —
zero truthy fields give the empty predicate; a one-element conditions
list is emitted unwrapped; two or more truthy fields give a conjunction
with exactly one condition per truthy field, equality conditions for
gender/color/usage/product type/category, <= for max price and >= for
min price. -/
theorem C4_filter_compiler (filters : Filters) :
    (conditionsOf filters).length = truthyFieldCount filters ∧
    (truthyFieldCount filters = 0 → build_chroma_where filters = Where.empty) ∧
    (∀ c, conditionsOf filters = [c] → build_chroma_where filters = Where.single c) ∧
    (2 ≤ truthyFieldCount filters →
      build_chroma_where filters = Where.conj (conditionsOf filters)) ∧
    (strTruthy filters.gender = true →
      Cond.eq "Gender" (filters.gender.getD "") ∈ conditionsOf filters) ∧
    (strTruthy filters.color = true →
      Cond.eq "Colour" (filters.color.getD "") ∈ conditionsOf filters) ∧
    (strTruthy filters.usage = true →
      Cond.eq "Usage" (filters.usage.getD "") ∈ conditionsOf filters) ∧
    (strTruthy filters.product_type = true →
      Cond.eq "ProductType" (filters.product_type.getD "") ∈ conditionsOf filters) ∧
    (strTruthy filters.category = true →
      Cond.eq "Category" (filters.category.getD "") ∈ conditionsOf filters) ∧
    (intTruthy filters.max_price = true →
      Cond.lte "Price" (filters.max_price.getD 0) ∈ conditionsOf filters) ∧
    (intTruthy filters.min_price = true →
      Cond.gte "Price" (filters.min_price.getD 0) ∈ conditionsOf filters) := by
  refine ⟨conditionsOf_length filters, ?_, ?_, ?_, ?_, ?_, ?_, ?_, ?_, ?_, ?_⟩
  · intro h0
    have hnil : conditionsOf filters = [] :=
      List.length_eq_zero.mp ((conditionsOf_length filters).trans h0)
    simp [build_chroma_where, hnil]
  · intro c hc
    simp [build_chroma_where, hc]
  · intro h2
    have hlen : 2 ≤ (conditionsOf filters).length := (conditionsOf_length filters).symm ▸ h2
    rcases hcs : conditionsOf filters with _ | ⟨a, _ | ⟨b, t⟩⟩
    · rw [hcs] at hlen; simp at hlen
    · rw [hcs] at hlen; simp at hlen
    · simp [build_chroma_where, hcs]
  all_goals intro h
  all_goals simp [conditionsOf, h]

/-- C4 witness: the empty Filter Set compiles to the empty predicate; the
gender-only Filter Set compiles to the bare gender condition; the Filter
Set of the end-to-end scenario (color Blue, max price 2000) compiles to a
two-condition conjunction. -/
theorem C4_witness :
    build_chroma_where ({} : Filters) = Where.empty ∧
    build_chroma_where fMenOnly = Where.single (Cond.eq "Gender" "Men") ∧
    build_chroma_where fBlue2000 =
      Where.conj [Cond.eq "Colour" "Blue", Cond.lte "Price" 2000] ∧
    (conditionsOf fBlue2000).length = truthyFieldCount fBlue2000 :=
  ⟨(C4_filter_compiler {}).2.1 (by decide),
   (C4_filter_compiler fMenOnly).2.2.1 (Cond.eq "Gender" "Men") (by decide),
   by
     have h := (C4_filter_compiler fBlue2000).2.2.2.1 (by decide)
     rw [h]; decide,
   (C4_filter_compiler fBlue2000).1⟩

/-- Both branches of text_search's step 3-4 return ok, and both returned
dicts carry the originally extracted Filter Set unchanged. -/
theorem textFinish_ok (advResp : Except Unit String) (db : List Product) (filters : Filters)
    (query : String) (ids : List Int) :
    ∃ r, textFinish advResp db filters query ids = Except.ok r ∧ r.filters = filters := by
  unfold textFinish
  split
  · exact ⟨_, rfl, rfl⟩
  · exact ⟨_, rfl, rfl⟩

/-- The limit of the first text-search index query is the clamped
min(n_results, 50), with or without a predicate. -/
theorem textIndexQuery_n_results (filters : Filters) (query : String) (n : Nat) :
    (textIndexQuery filters query n).n_results = min n 50 := by
  unfold textIndexQuery textRetryQuery
  split <;> rfl

/-- The text of the first text-search index query is the or-fallback
search text, with or without a predicate. -/
theorem textIndexQuery_query_text (filters : Filters) (query : String) (n : Nat) :
    (textIndexQuery filters query n).query_text = searchTextOf filters query := by
  unfold textIndexQuery textRetryQuery
  split <;> rfl

/-- text_search issues either just the first index query, or the first
query followed by the unfiltered retry. -/
theorem text_search_issued (q : IndexQuery → Except Unit (List Int))
    (advResp : Except Unit String) (db : List Product) (filters : Filters)
    (query : String) (n : Nat) :
    (text_search q advResp db filters query n).2 = [textIndexQuery filters query n] ∨
    (text_search q advResp db filters query n).2 =
      [textIndexQuery filters query n, textRetryQuery filters query n] := by
  rcases hfq : q (textIndexQuery filters query n) with _ | ids1
  · rcases hrq : q (textRetryQuery filters query n) with _ | ids2 <;>
      simp [text_search, hfq, hrq]
  · simp [text_search, hfq]

/-- text_search returns ok (both of textFinish's branches do) whenever
its unfiltered index query succeeds, whatever the first query did and
whatever the advice completion call did. -/
theorem text_search_ok_of_retry (q : IndexQuery → Except Unit (List Int))
    (advResp : Except Unit String) (db : List Product) (filters : Filters)
    (query : String) (n : Nat) (ids : List Int)
    (hretry : q (textRetryQuery filters query n) = Except.ok ids) :
    ∃ r, (text_search q advResp db filters query n).1 = Except.ok r := by
  rcases hfq : q (textIndexQuery filters query n) with _ | ids1
  · obtain ⟨r2, hr2, _⟩ := textFinish_ok advResp db filters query ids
    refine ⟨r2, ?_⟩
    simp [text_search, hfq, hretry, hr2]
  · obtain ⟨r1, hr1, _⟩ := textFinish_ok advResp db filters query ids1
    refine ⟨r1, ?_⟩
    simp [text_search, hfq, hr1]

/-- image_search returns ok whenever its unfiltered index query succeeds,
whatever the first query did. -/
theorem image_search_ok_of_retry (q : IndexQuery → Except Unit (List Int))
    (db : List Product) (analysis : ImageAnalysis) (n : Nat) (ids : List Int)
    (hretry : q (imageRetryQuery analysis n) = Except.ok ids) :
    ∃ r, (image_search q db analysis n).1 = Except.ok r := by
  rcases hfq : q (imageIndexQuery analysis n) with _ | ids1 <;>
    simp [image_search, hfq, hretry]

/-- C1 counterexample: two errors rooted in external dependencies
propagate to the caller.  First, with an index backend succeeding on
every call, a completion output "[]" — valid JSON of non-dict shape —
makes text_search raise at the `filters.get` attribute access
(search.py line 143) before any index query.  Second, with an existing
base product and a failing index backend,
`get_outfit_recommendations` propagates the index error — its call
site (search.py lines 276-280) has no fallback. -/
theorem C1_counterexample :
    (text_search_from_parse qAlwaysEmpty genOk []
        (Except.ok (some (JsonVal.arr []))) "q" 12).1 = Except.error () ∧
    (get_outfit_recommendations qAlwaysFail genFail [pBase] 7).1 = Except.error () := by decide

/-- C1 as amended: no failure of a language-model completion CALL
propagates — a failed call or invalid-JSON output falls back inside the
extractor, and the advice call's failure falls back to a template — and
text_search/image_search recover from a failure of their first
(predicated) index query via the unfiltered retry: whenever the parse
outcome reads as a Filter Set (which the fallback dict produced on call
failure or invalid JSON always does) and the unfiltered index query
succeeds, they return a structurally valid ok result;
get_outfit_recommendations returns ok whenever its single index query
succeeds.  But three error paths do propagate: completion output that is
valid JSON of non-dict shape raises AttributeError at the
`filters.get`/`analysis.get` access before any index query is issued; a
failure of the unfiltered index query in text/image search; and any
failure of the outfit recommender's unguarded index query. -/
theorem C1_resilience :
    (∀ (q : IndexQuery → Except Unit (List Int)) (advResp : Except Unit String)
        (db : List Product) (parsedResponse : Except Unit (Option JsonVal))
        (filters : Filters) (query : String) (n : Nat) (ids : List Int),
        filtersOfJson (parse_query_with_gemini parsedResponse query) = some filters →
        q (textRetryQuery filters query n) = Except.ok ids →
        ∃ r, (text_search_from_parse q advResp db parsedResponse query n).1 = Except.ok r) ∧
    (∀ (q : IndexQuery → Except Unit (List Int)) (advResp : Except Unit String)
        (db : List Product) (j : JsonVal) (query : String) (n : Nat),
        (∀ fields, j ≠ JsonVal.obj fields) →
        text_search_from_parse q advResp db (Except.ok (some j)) query n =
          (Except.error (), [])) ∧
    (∀ (q : IndexQuery → Except Unit (List Int)) (db : List Product)
        (visionResponse : Except Unit (Option JsonVal)) (analysis : ImageAnalysis)
        (n : Nat) (ids : List Int),
        analysisOfJson (visionParsed visionResponse) = some analysis →
        q (imageRetryQuery analysis n) = Except.ok ids →
        ∃ r, (image_search_from_vision q db visionResponse n).1 = Except.ok r) ∧
    (∀ (q : IndexQuery → Except Unit (List Int)) (db : List Product) (j : JsonVal) (n : Nat),
        (∀ fields, j ≠ JsonVal.obj fields) →
        image_search_from_vision q db (Except.ok (some j)) n = (Except.error (), [])) ∧
    (∀ (q : IndexQuery → Except Unit (List Int)) (advResp : Except Unit String)
        (db : List Product) (product_id : Int),
        (∀ iq, ∃ ids, q iq = Except.ok ids) →
        ∃ r, (get_outfit_recommendations q advResp db product_id).1 = Except.ok r) := by
  refine ⟨?_, ?_, ?_, ?_, ?_⟩
  · intro q advResp db parsedResponse filters query n ids hp hretry
    simp only [text_search_from_parse, hp]
    exact text_search_ok_of_retry q advResp db filters query n ids hretry
  · intro q advResp db j query n hobj
    cases j
    case obj fields => exact absurd rfl (hobj fields)
    all_goals rfl
  · intro q db visionResponse analysis n ids hp hretry
    simp only [image_search_from_vision, hp]
    exact image_search_ok_of_retry q db analysis n ids hretry
  · intro q db j n hobj
    cases j
    case obj fields => exact absurd rfl (hobj fields)
    all_goals rfl
  · intro q advResp db product_id hq
    rcases hf : get_product_by_id db product_id with _ | product
    · simp [get_outfit_recommendations, hf]
    · obtain ⟨ids, hids⟩ := hq (outfitIndexQuery product)
      simp [get_outfit_recommendations, hf, hids]

/-- C1 witness: the amended statement at concrete inputs — a failed
completion call still yields ok results from both search entry points
(through the fallback Filter Set), a non-dict JSON completion yields the
propagating error with no index query issued, and the outfit recommender
returns ok when its index call succeeds. -/
theorem C1_witness :
    (∃ r, (text_search_from_parse qAlwaysEmpty genFail [] (Except.error ()) "q" 12).1 =
      Except.ok r) ∧
    text_search_from_parse qAlwaysEmpty genFail [] (Except.ok (some (JsonVal.int 3))) "q" 12 =
      (Except.error (), []) ∧
    (∃ r, (image_search_from_vision qAlwaysEmpty [] (Except.error ()) 12).1 = Except.ok r) ∧
    image_search_from_vision qAlwaysEmpty [] (Except.ok (some (JsonVal.str "no"))) 12 =
      (Except.error (), []) ∧
    (∃ r, (get_outfit_recommendations qAlwaysEmpty genFail [pBase] 7).1 = Except.ok r) :=
  ⟨C1_resilience.1 qAlwaysEmpty genFail [] (Except.error ()) { search_text := some "q" } "q" 12
      [] (by decide) rfl,
   C1_resilience.2.1 qAlwaysEmpty genFail [] (JsonVal.int 3) "q" 12
      (fun _ h => JsonVal.noConfusion h),
   C1_resilience.2.2.1 qAlwaysEmpty [] (Except.error ()) imageFallbackAnalysis 12 []
      (by decide) rfl,
   C1_resilience.2.2.2.1 qAlwaysEmpty [] (JsonVal.str "no") 12
      (fun _ h => JsonVal.noConfusion h),
   C1_resilience.2.2.2.2 qAlwaysEmpty genFail [pBase] 7 (fun _ => ⟨[], rfl⟩)⟩

/-- C2 counterexample: image_search called with a limit of 1000 issues an
index query whose limit is 1000, not clamped to 50 (search.py lines
235-240 pass n_results through unclamped). -/
theorem C2_counterexample :
    (image_search qAlwaysEmpty [] ({} : ImageAnalysis) 1000).2 =
      [{ query_text := "fashion", n_results := 1000, where_clause := none }] ∧
    ¬(1000 ≤ 50) := by decide

/-- C2 as amended: every index query text_search issues carries the limit
min(requested, 50), and every index query the Outfit Recommender issues
carries the fixed limit 6 — but the clamp does not extend to
image_search (see the counterexample). -/
theorem C2_limit_clamp :
    (∀ (q : IndexQuery → Except Unit (List Int)) (advResp : Except Unit String)
        (db : List Product) (filters : Filters) (query : String) (n : Nat),
        ((text_search q advResp db filters query n).2.map IndexQuery.n_results).all
          (fun m => m == min n 50) = true) ∧
    (∀ (q : IndexQuery → Except Unit (List Int)) (advResp : Except Unit String)
        (db : List Product) (product_id : Int),
        ((get_outfit_recommendations q advResp db product_id).2.map IndexQuery.n_results).all
          (fun m => m == 6) = true) := by
  constructor
  · intro q advResp db filters query n
    rcases text_search_issued q advResp db filters query n with h | h <;>
      simp [h, textIndexQuery_n_results, textRetryQuery]
  · intro q advResp db product_id
    rcases hf : get_product_by_id db product_id with _ | product
    · simp [get_outfit_recommendations, hf]
    · rcases hq : q (outfitIndexQuery product) with _ | ids
      · simp only [get_outfit_recommendations, hf, hq]
        simp [outfitIndexQuery]
      · simp only [get_outfit_recommendations, hf, hq]
        simp [outfitIndexQuery]

/-- C3 counterexample: the store holds products 1 and 2 in that table
order, the Similarity Match Set ranks product 2 first, yet text_search
returns [product 1, product 2] — the store's return order, not the
ranking order [product 2, product 1]. -/
theorem C3_counterexample :
    (text_search qRankTwoFirst genOk [pOne, pTwo] ({} : Filters) "q" 12).1 =
      Except.ok { products := [pOne, pTwo], advice := "Nice picks.",
                  filters := {}, search_text := some "q" } ∧
    [pOne, pTwo] ≠ [pTwo, pOne] := by decide

/-- C3 as amended: for every text search with a non-empty match set, the
returned product list is exactly `get_products_by_ids` applied to the
matched identifiers — the Product Store's return (table-scan) order —
with no re-ordering by the Similarity Match Set's ranking. -/
theorem C3_store_order (q : IndexQuery → Except Unit (List Int))
    (advResp : Except Unit String) (db : List Product) (filters : Filters)
    (query : String) (n : Nat) (ids : List Int)
    (hq : q (textIndexQuery filters query n) = Except.ok ids) (hne : ids ≠ []) :
    (text_search q advResp db filters query n).1 =
      Except.ok { products := get_products_by_ids db ids,
                  advice := (generate_fashion_advice advResp query
                    ((get_products_by_ids db ids).take 4)).1,
                  filters := filters, search_text := some (searchTextOf filters query) } := by
  have hni : ids.isEmpty = false := by
    cases ids
    · exact absurd rfl hne
    · rfl
  simp [text_search, hq, textFinish, hni]

/-- C3 witness: the amended statement at the two-row store with ranking
[2, 1]. -/
theorem C3_witness :
    (text_search qRankTwoFirst genFail [pOne, pTwo] ({} : Filters) "w" 5).1 =
      Except.ok { products := get_products_by_ids [pOne, pTwo] [2, 1],
                  advice := (generate_fashion_advice genFail "w"
                    ((get_products_by_ids [pOne, pTwo] [2, 1]).take 4)).1,
                  filters := {}, search_text := some (searchTextOf {} "w") } :=
  C3_store_order qRankTwoFirst genFail [pOne, pTwo] {} "w" 5 [2, 1] rfl (by decide)

/-- C5 counterexample: with a gender predicate extracted and an index
backend that fails both the predicated query and the unfiltered retry,
text_search propagates the error — the claim's unconditional "returns a
non-error result" fails when the retry itself fails (search.py lines
164-167 are unguarded). -/
theorem C5_counterexample :
    build_chroma_where fMenOnly ≠ Where.empty ∧
    (text_search qAlwaysFail genOk [] fMenOnly "shirts" 12).1 = Except.error () := by decide

/-- C5 as amended: when the first index query carries a non-empty
predicate and fails, text_search retries exactly once with the predicate
removed (the issued queries are the predicated one then the unfiltered
one); provided that retry succeeds, the failure does not propagate and
the returned Search Result is ok with its filters field the originally
extracted, unapplied Filter Set. -/
theorem C5_predicate_retry (q : IndexQuery → Except Unit (List Int))
    (advResp : Except Unit String) (db : List Product) (filters : Filters)
    (query : String) (n : Nat) (ids : List Int)
    (hw : build_chroma_where filters ≠ Where.empty)
    (hfail : q (textIndexQuery filters query n) = Except.error ())
    (hretry : q (textRetryQuery filters query n) = Except.ok ids) :
    (text_search q advResp db filters query n).2 =
      [textIndexQuery filters query n, textRetryQuery filters query n] ∧
    (textIndexQuery filters query n).where_clause = some (build_chroma_where filters) ∧
    (textRetryQuery filters query n).where_clause = none ∧
    ∃ r, (text_search q advResp db filters query n).1 = Except.ok r ∧ r.filters = filters := by
  refine ⟨?_, ?_, rfl, ?_⟩
  · simp [text_search, hfail, hretry]
  · simp [textIndexQuery, hw]
  · obtain ⟨r, hr, hrf⟩ := textFinish_ok advResp db filters query ids
    refine ⟨r, ?_, hrf⟩
    simp [text_search, hfail, hretry, hr]

/-- C5 witness: the amended statement at a backend that rejects every
predicated query and answers the unfiltered retry with zero matches. -/
theorem C5_witness :
    (text_search qFailFiltered genOk [] fMenOnly "shirts" 12).2 =
      [textIndexQuery fMenOnly "shirts" 12, textRetryQuery fMenOnly "shirts" 12] ∧
    (textIndexQuery fMenOnly "shirts" 12).where_clause = some (build_chroma_where fMenOnly) ∧
    (textRetryQuery fMenOnly "shirts" 12).where_clause = none ∧
    ∃ r, (text_search qFailFiltered genOk [] fMenOnly "shirts" 12).1 = Except.ok r ∧
      r.filters = fMenOnly :=
  C5_predicate_retry qFailFiltered genOk [] fMenOnly "shirts" 12 [] (by decide) (by decide)
    (by decide)

/-- C10 counterexample: text_search called with the empty raw query and an
extraction yielding no phrase queries the index with the EMPTY search
text — the claimed "never queried with a null or empty search text"
fails for an empty raw query. -/
theorem C10_counterexample :
    (text_search qAlwaysEmpty genOk [] ({} : Filters) "" 12).2 =
      [{ query_text := "", n_results := 12, where_clause := none }] := by decide

/-- C10 as amended: the search text passed to every index query text_search
issues is the extracted phrase when that phrase is non-null and
non-empty, and the original raw query otherwise; it is never null, and
it is empty only when the raw query itself is empty. -/
theorem C10_query_text (q : IndexQuery → Except Unit (List Int))
    (advResp : Except Unit String) (db : List Product) (filters : Filters)
    (query : String) (n : Nat) :
    (∀ s, filters.search_text = some s → s ≠ "" → searchTextOf filters query = s) ∧
    ((filters.search_text = none ∨ filters.search_text = some "") →
      searchTextOf filters query = query) ∧
    (query ≠ "" → searchTextOf filters query ≠ "") ∧
    ∀ iq ∈ (text_search q advResp db filters query n).2,
      iq.query_text = searchTextOf filters query := by
  refine ⟨?_, ?_, ?_, ?_⟩
  · intro s hs hne
    simp [searchTextOf, hs, hne]
  · intro h
    rcases h with h | h <;> simp [searchTextOf, h]
  · intro hq
    rcases hst : filters.search_text with _ | s
    · simpa [searchTextOf, hst] using hq
    · by_cases hs : s = ""
      · simpa [searchTextOf, hst, hs] using hq
      · simp [searchTextOf, hst, hs]
  · intro iq hiq
    rcases text_search_issued q advResp db filters query n with h | h <;> rw [h] at hiq <;>
      simp at hiq
    · rw [hiq]
      exact textIndexQuery_query_text filters query n
    · rcases hiq with hiq | hiq <;> rw [hiq]
      · exact textIndexQuery_query_text filters query n
      · rfl

/-- C10 witness: a truthy extracted phrase is used; a null phrase falls
back to the raw query, which keeps the issued text non-empty. -/
theorem C10_witness :
    searchTextOf { search_text := some "blue shirts" } "q" = "blue shirts" ∧
    searchTextOf ({} : Filters) "q" = "q" ∧
    searchTextOf ({} : Filters) "q" ≠ "" :=
  ⟨(C10_query_text qAlwaysEmpty genOk [] { search_text := some "blue shirts" } "q" 12).1
      "blue shirts" rfl (by decide),
   (C10_query_text qAlwaysEmpty genOk [] {} "q" 12).2.1 (Or.inl rfl),
   (C10_query_text qAlwaysEmpty genOk [] {} "q" 12).2.2.1 (by decide)⟩

/-- Every product the store lookup returns has its identifier in the
requested id list. -/
theorem mem_ids_of_mem_get_products (db : List Product) (ids : List Int) (p : Product)
    (hp : p ∈ get_products_by_ids db ids) : p.ProductId ∈ ids := by
  unfold get_products_by_ids at hp
  split at hp
  · simp at hp
  · simpa using (List.mem_filter.mp hp).2

/-- When the table's identifiers are distinct (the Product data-model
invariant), the store returns at most one row per requested identifier. -/
theorem get_products_by_ids_length_le (db : List Product) (ids : List Int)
    (hnd : (db.map Product.ProductId).Nodup) :
    (get_products_by_ids db ids).length ≤ ids.length := by
  unfold get_products_by_ids
  split
  · simp
  · have hsl : ((db.filter (fun p => ids.contains p.ProductId)).map Product.ProductId).Sublist
        (db.map Product.ProductId) :=
      List.Sublist.map _ (List.filter_sublist db)
    have hnodup : ((db.filter (fun p => ids.contains p.ProductId)).map Product.ProductId).Nodup :=
      hnd.sublist hsl
    have hsub : ∀ x ∈ (db.filter (fun p => ids.contains p.ProductId)).map Product.ProductId,
        x ∈ ids := by
      intro x hx
      rcases List.mem_map.mp hx with ⟨p, hp, rfl⟩
      simpa using (List.mem_filter.mp hp).2
    have := (List.subperm_of_subset hnodup hsub).length_le
    simpa using this

/-- C9: for every found base product, the Outfit Recommender issues
exactly one Similarity Index query, filtered by gender equality only
with a requested limit of 6; the base product's own identifier is
excluded from the match identifiers before the list is truncated to 6
and looked up, so the result holds at most 6 products and never contains
the base product's identifier (the table's identifiers being distinct,
per the Product data model). -/
theorem C9_outfit_recommender (q : IndexQuery → Except Unit (List Int))
    (advResp : Except Unit String) (db : List Product) (product_id : Int)
    (product : Product) (ids : List Int)
    (hfound : get_product_by_id db product_id = some product)
    (hq : q (outfitIndexQuery product) = Except.ok ids)
    (hnd : (db.map Product.ProductId).Nodup) :
    (get_outfit_recommendations q advResp db product_id).2 = [outfitIndexQuery product] ∧
    (outfitIndexQuery product).n_results = 6 ∧
    (outfitIndexQuery product).where_clause =
      some (Where.single (Cond.eq "Gender" product.Gender)) ∧
    ∃ r, (get_outfit_recommendations q advResp db product_id).1 = Except.ok r ∧
      r.products = get_products_by_ids db ((ids.filter (fun pid => pid != product_id)).take 6) ∧
      r.products.length ≤ 6 ∧
      product_id ∉ r.products.map Product.ProductId := by
  have hres : (get_outfit_recommendations q advResp db product_id).1 =
      Except.ok { products :=
                    get_products_by_ids db ((ids.filter (fun pid => pid != product_id)).take 6),
                  advice := generate_outfit_advice advResp product
                    (get_products_by_ids db ((ids.filter (fun pid => pid != product_id)).take 6)),
                  base_product := some product } := by
    simp only [get_outfit_recommendations, hfound, hq]
  refine ⟨?_, rfl, rfl, ?_⟩
  · simp only [get_outfit_recommendations, hfound, hq]
  · refine ⟨_, hres, rfl, ?_, ?_⟩
    · exact le_trans
        (get_products_by_ids_length_le db ((ids.filter (fun pid => pid != product_id)).take 6) hnd)
        (List.length_take_le 6 _)
    · intro hmem
      rcases List.mem_map.mp hmem with ⟨p, hp, hpid⟩
      have h1 := mem_ids_of_mem_get_products db _ p hp
      have h2 : p.ProductId ∈ ids.filter (fun pid => pid != product_id) :=
        List.take_subset 6 _ h1
      have h3 := (List.mem_filter.mp h2).2
      rw [hpid] at h3
      simp at h3

/-- C9 witness: base product 7 (Men, Topwear) in a two-row store; the
index returns [7, 8] — including the base product itself — and the
recommender returns only product 8. -/
theorem C9_witness :
    (get_outfit_recommendations qReturnsBase genOk [pBase, pComp] 7).2 =
      [outfitIndexQuery pBase] ∧
    (outfitIndexQuery pBase).n_results = 6 ∧
    (outfitIndexQuery pBase).where_clause =
      some (Where.single (Cond.eq "Gender" pBase.Gender)) ∧
    ∃ r, (get_outfit_recommendations qReturnsBase genOk [pBase, pComp] 7).1 = Except.ok r ∧
      r.products =
        get_products_by_ids [pBase, pComp] (((([7, 8] : List Int)).filter
          (fun pid => pid != (7 : Int))).take 6) ∧
      r.products.length ≤ 6 ∧
      (7 : Int) ∉ r.products.map Product.ProductId :=
  C9_outfit_recommender qReturnsBase genOk [pBase, pComp] 7 pBase [7, 8] rfl rfl (by decide)

end FashionRec
